import Mathlib

/-!
Verification of the real-time audio streaming engine of this repository.

The embedding below translates the two core classes:

* `LiveMusicHelper` (src/components/FxPad.ts, third document in the file):
  session lifecycle, reconnection with exponential backoff, the playback
  scheduler `processAudioChunk`, prompt management and recording guards.
* `AudioEffects` (src/unnamed/part_002): the effects graph parameter
  setters (pan, filter, delay, reverb, 8D toggle).

Machine numbers (JS doubles) are modelled as rationals `ℚ` except for the
logarithmic filter-cutoff mapping, which uses `Math.pow` with a real
exponent and is modelled over `ℝ` with `Real.rpow`.

Side effects are made explicit: each operation returns the new state
together with the list of DOM events it dispatches and, where relevant,
the timers it arms (`setTimeout`) and the upstream session calls it makes.
-/

/-- `PlaybackState` from src/types (values as used throughout FxPad.ts). -/
inductive PlaybackState where
  | stopped
  | loading
  | playing
  | paused
deriving DecidableEq, Repr

/-- A prompt as handled by `LiveMusicHelper` (fields per usage in the
source: id, text, weight, MIDI cc, color, category). -/
structure Prompt where
  promptId : String
  text : String
  weight : ℚ
  cc : ℕ
  color : String
  category : String
deriving DecidableEq, Repr

/-- Events dispatched by `LiveMusicHelper` via `dispatchEvent`. -/
inductive Event where
  | playbackStateChanged (s : PlaybackState)
  | errorEvt (msg : String)
  | filteredPromptEvt (text : String)
  | recordingStateChanged (b : Bool)
deriving DecidableEq, Repr

/-- The mutable state of a `LiveMusicHelper` instance
(src/components/FxPad.ts).  `hasSession` models `session !== null`,
`hasRecorder` models `mediaRecorder !== null`, `outputGain` models the
final target of the `outputNode.gain` ramp. -/
structure Helper where
  playbackState : PlaybackState
  nextStartTime : ℚ
  bufferTime : ℚ
  filteredPrompts : List String
  isTryingToConnectOrPlay : Bool
  reconnectAttempts : ℕ
  maxReconnectAttempts : ℕ
  isRecording : Bool
  hasRecorder : Bool
  hasSession : Bool
  outputGain : ℚ
  playbackRate : ℚ
  prompts : List Prompt
deriving DecidableEq, Repr

/-- State set up by the `LiveMusicHelper` constructor. -/
def initHelper : Helper where
  playbackState := .stopped
  nextStartTime := 0
  bufferTime := 5/2
  filteredPrompts := []
  isTryingToConnectOrPlay := false
  reconnectAttempts := 0
  maxReconnectAttempts := 5
  isRecording := false
  hasRecorder := false
  hasSession := false
  outputGain := 1
  playbackRate := 1
  prompts := []

/-- One decoded audio chunk handed to `processAudioChunk`: the audio-clock
time `now` (`audioContext.currentTime`) at the moment of scheduling, the
decoded buffer duration, and whether `chunk.data` was present. -/
structure Chunk where
  now : ℚ
  dur : ℚ
  hasData : Bool
deriving DecidableEq, Repr

/-- A buffer source started by `processAudioChunk`: its scheduled start
time (the argument of `source.start`), its duration, and whether the
drift resynchronization branch fired during this ingest. -/
structure Sched where
  start : ℚ
  dur : ℚ
  resync : Bool
deriving DecidableEq, Repr

/-- `LiveMusicHelper.processAudioChunk`.  Returns the new state, the
buffer scheduled by `source.start` (if any) and whether a pre-roll
`setTimeout(bufferTime)` timer was armed by this ingest. -/
def processAudioChunk (h : Helper) (c : Chunk) : Helper × Option Sched × Bool :=
  if h.playbackState = .paused ∨ h.playbackState = .stopped ∨ c.hasData = false then
    (h, none, false)
  else
    let resync := decide (h.nextStartTime < c.now - 1/2)
    let t1 := if resync then c.now + 1/10 else h.nextStartTime
    let isLoading := decide (h.playbackState = .loading)
    let t2 := if isLoading then c.now + h.bufferTime else t1
    ({ h with nextStartTime := t2 + c.dur }, some ⟨t2, c.dur, resync⟩, isLoading)

/-- The pre-roll timer armed in `processAudioChunk`: when it fires it
transitions to `playing` only if the state is still `loading`. -/
def preRollTimerFire (h : Helper) : Helper × List Event :=
  if h.playbackState = .loading then
    ({ h with playbackState := .playing }, [.playbackStateChanged .playing])
  else (h, [])

/-- Ingest a whole sequence of chunks through `processAudioChunk`,
collecting every scheduled buffer in order. -/
def ingestAll (h : Helper) (cs : List Chunk) : Helper × List Sched :=
  match cs with
  | [] => (h, [])
  | c :: rest =>
    let r := processAudioChunk h c
    let r' := ingestAll r.1 rest
    (r'.1, r.2.1.toList ++ r'.2)

/-- `LiveMusicHelper.activePrompts`: prompts whose text is not content
filtered and whose weight is positive. -/
def activePrompts (h : Helper) : List Prompt :=
  h.prompts.filter (fun p => !(h.filteredPrompts.contains p.text) && decide (0 < p.weight))

/-- Error message dispatched when `play()` is called with no active
prompt. -/
def noPromptMsg : String := "Add an active prompt to start music."

/-- Retry-progress error message dispatched by `handleDisconnection`. -/
def retryMsg (n m : ℕ) : String :=
  "Connection interrupted. Retrying... (" ++ toString n ++ "/" ++ toString m ++ ")"

/-- Fatal error message dispatched when reconnect attempts are
exhausted. -/
def fatalMsg : String :=
  "Unable to maintain connection. Please check your network and try again."

/-- `LiveMusicHelper.stop`.  `stopRecording` only calls
`mediaRecorder.stop()`; its `onstop` callback runs asynchronously and is
modelled separately, so the synchronous state change here is the stop
itself. -/
def stop (h : Helper) : Helper × List Event :=
  ({ h with
      isTryingToConnectOrPlay := false
      playbackState := .stopped
      outputGain := 0
      nextStartTime := 0
      hasSession := false },
   [.playbackStateChanged .stopped])

/-- `LiveMusicHelper.pause`. -/
def pause (h : Helper) : Helper × List Event :=
  ({ h with
      isTryingToConnectOrPlay := false
      playbackState := .paused
      outputGain := 0
      nextStartTime := 0 },
   [.playbackStateChanged .paused])

/-- `LiveMusicHelper.handleDisconnection`.  Returns the new state, the
dispatched events, and the delay (ms) of the reconnect `setTimeout` it
arms, if any. -/
def handleDisconnection (h : Helper) : Helper × List Event × Option ℕ :=
  let wasTrying := h.isTryingToConnectOrPlay
  let h0 := { h with hasSession := false }
  if wasTrying = true ∧ h0.reconnectAttempts < h0.maxReconnectAttempts then
    let h1 := { h0 with
      playbackState := .loading
      reconnectAttempts := h0.reconnectAttempts + 1 }
    (h1,
     [.playbackStateChanged .loading,
      .errorEvt (retryMsg h1.reconnectAttempts h1.maxReconnectAttempts)],
     some (min (1000 * 2 ^ h1.reconnectAttempts) 8000))
  else if wasTrying = true then
    let r := stop h0
    (r.1, .errorEvt fatalMsg :: r.2, none)
  else
    (h0, [], none)

/-- Apply `handleDisconnection` `k` times in a row (the always-failing
reconnection scenario: every attempted session errors or closes again),
collecting all events and all armed retry delays. -/
def runDisconnections : Helper → ℕ → Helper × List Event × List ℕ
  | h, 0 => (h, [], [])
  | h, k + 1 =>
    let r := handleDisconnection h
    let r' := runDisconnections r.1 k
    (r'.1, r.2.1 ++ r'.2.1, r.2.2.toList ++ r'.2.2)

/-- Outcome of the awaited `connect()` inside `play()`: the session opens,
or the open throws (routed to `handleDisconnection` by the catch block). -/
inductive ConnectOutcome where
  | success
  | failureThrown
deriving DecidableEq, Repr

/-- `LiveMusicHelper.play`.  Returns the new state, the dispatched events
and the reconnect delay armed by the catch path, if any. -/
def play (h : Helper) (oc : ConnectOutcome) : Helper × List Event × Option ℕ :=
  let h0 := { h with isTryingToConnectOrPlay := true }
  if (activePrompts h0).length = 0 then
    ({ h0 with isTryingToConnectOrPlay := false }, [.errorEvt noPromptMsg], none)
  else
    let h1 := { h0 with playbackState := .loading }
    match oc with
    | .success =>
      ({ h1 with hasSession := true, outputGain := 1 },
       [.playbackStateChanged .loading], none)
    | .failureThrown =>
      let r := handleDisconnection h1
      (r.1, .playbackStateChanged .loading :: r.2.1, r.2.2)

/-- Adding a text to the `filteredPrompts` set
(`new Set([...old, text])`): JS set insertion order, no duplicates. -/
def addFiltered (l : List String) (t : String) : List String :=
  if l.contains t then l else l ++ [t]

/-- The `filteredPrompt` branch of the session `onmessage` callback. -/
def onFilteredPrompt (h : Helper) (t : String) : Helper × List Event :=
  ({ h with filteredPrompts := addFiltered h.filteredPrompts t },
   [.filteredPromptEvt t])

/-- The `setupComplete` branch of the session `onmessage` callback. -/
def onSetupComplete (h : Helper) : Helper :=
  { h with reconnectAttempts := 0 }

/-- `LiveMusicHelper.startRecording`: guarded so it only acts when not
already recording and the playback state is `playing`. -/
def startRecording (h : Helper) : Helper × List Event :=
  if h.isRecording = true ∨ h.playbackState ≠ .playing then
    (h, [])
  else
    ({ h with isRecording := true, hasRecorder := true },
     [.recordingStateChanged true])

/-- Throttle interval (ms) used for `setWeightedPrompts` in the source. -/
def throttleWindowMs : ℚ := 150

/-- Modelled from the spec: the `throttle` utility imported from
`./throttle` (src/utils/throttle) is not under src/.  Per the spec
(section 4.4) it coalesces a burst of calls inside one 150 ms trailing
window into a single invocation carrying the most recently supplied
arguments.  For the calls of one window, the invocations that actually
fire are therefore exactly the last one. -/
def throttleBurstFire {α : Type} (calls : List α) : List α :=
  match calls.getLast? with
  | none => []
  | some a => [a]

/-- The body wrapped by `throttle` in
`LiveMusicHelper.setWeightedPrompts`: cache the full replacement prompt
set, then, only if a session exists, make one upstream
`session.setWeightedPrompts` call carrying `activePrompts`.  The second
component is the list of upstream call payloads made. -/
def setWeightedPromptsBody (h : Helper) (ps : List Prompt) :
    Helper × List (List Prompt) :=
  let h1 := { h with prompts := ps }
  if h1.hasSession = true then (h1, [activePrompts h1]) else (h1, [])

/-- Run one 150 ms window's burst of `setWeightedPrompts` calls (each a
timestamp in ms and a payload) through the throttle and the body,
collecting all upstream call payloads. -/
def setWeightedPromptsWindow (h : Helper) (calls : List (ℚ × List Prompt)) :
    Helper × List (List Prompt) :=
  (throttleBurstFire calls).foldl
    (fun acc c =>
      let r := setWeightedPromptsBody acc.1 c.2
      (r.1, acc.2 ++ r.2))
    (h, [])

/-- The `AudioContext` sample rate fixed by the `LiveMusicHelper`
constructor (`new AudioContext({ sampleRate: 48000 })`). -/
def sampleRate : ℚ := 48000

/-- The Nyquist frequency `audioContext.sampleRate / 2` used by
`AudioEffects.setFilterCutoff` as the maximum frequency. -/
noncomputable def nyquistFreq : ℝ := (sampleRate : ℝ) / 2

/-- The frequency mapping of `AudioEffects.setFilterCutoff`:
`freq = minFreq * Math.pow(maxFreq / minFreq, value)` with
`minFreq = 40` and `maxFreq` the Nyquist frequency. -/
noncomputable def cutoffFreq (v : ℝ) : ℝ := 40 * (nyquistFreq / 40) ^ v

/-- The Q mapping of `AudioEffects.setFilterResonance`:
`qValue = minQ + value * (maxQ - minQ)` with `minQ = 0.1`, `maxQ = 20`. -/
def resonanceQ (v : ℚ) : ℚ := 1/10 + v * (20 - 1/10)

/-- The parameter state of `AudioEffects` (src/unnamed/part_002).  Each
field records the latest target handed to `setTargetAtTime` /
`linearRampToValueAtTime` for the corresponding `AudioParam` (all ramps
converge to their target, so targets are the observable steady state). -/
structure AudioEffects where
  panTarget : ℚ
  filterFreqTarget : ℝ
  filterQTarget : ℚ
  delayWetTarget : ℚ
  delayTimeTarget : ℚ
  delayFeedbackTarget : ℚ
  reverbWetTarget : ℚ
  eightDDryTarget : ℚ
  eightDWetTarget : ℚ
  lfoRunning : Bool
  is8DEnabled : Bool
  isMono : Bool

/-- State set up by the `AudioEffects` constructor. -/
noncomputable def initEffects : AudioEffects where
  panTarget := 0
  filterFreqTarget := (sampleRate : ℝ) / 2
  filterQTarget := 1
  delayWetTarget := 0
  delayTimeTarget := 1/2
  delayFeedbackTarget := 2/5
  reverbWetTarget := 0
  eightDDryTarget := 1
  eightDWetTarget := 0
  lfoRunning := false
  is8DEnabled := false
  isMono := false

/-- `AudioEffects.setPan`: ignored entirely while 8D is enabled,
otherwise the raw value becomes the pan smoothing target. -/
def setPan (e : AudioEffects) (v : ℚ) : AudioEffects :=
  if e.is8DEnabled = true then e else { e with panTarget := v }

/-- `AudioEffects.setFilterCutoff`. -/
noncomputable def setFilterCutoff (e : AudioEffects) (v : ℚ) : AudioEffects :=
  { e with filterFreqTarget := cutoffFreq v }

/-- `AudioEffects.setFilterResonance`. -/
def setFilterResonance (e : AudioEffects) (v : ℚ) : AudioEffects :=
  { e with filterQTarget := resonanceQ v }

/-- `AudioEffects.setDelay` (delay send mix). -/
def setDelay (e : AudioEffects) (v : ℚ) : AudioEffects :=
  { e with delayWetTarget := v }

/-- `AudioEffects.setReverb` (reverb send mix). -/
def setReverb (e : AudioEffects) (v : ℚ) : AudioEffects :=
  { e with reverbWetTarget := v }

/-- `AudioEffects.setDelayTime`. -/
def setDelayTime (e : AudioEffects) (v : ℚ) : AudioEffects :=
  { e with delayTimeTarget := v }

/-- `AudioEffects.setDelayFeedback`. -/
def setDelayFeedback (e : AudioEffects) (v : ℚ) : AudioEffects :=
  { e with delayFeedbackTarget := v }

/-- `AudioEffects.setMono`: no-op when the flag is unchanged. -/
def setMono (e : AudioEffects) (m : Bool) : AudioEffects :=
  if m = e.isMono then e else { e with isMono := m }

/-- `AudioEffects.toggle8D`: no-op when the flag is unchanged; otherwise
crossfades dry and wet gains, starts or stops the pan LFO, and on
disable re-targets pan to 0. -/
def toggle8D (e : AudioEffects) (enabled : Bool) : AudioEffects :=
  if e.is8DEnabled = enabled then e
  else if enabled = true then
    { e with
        is8DEnabled := true
        eightDDryTarget := 0
        eightDWetTarget := 1
        lfoRunning := true }
  else
    { e with
        is8DEnabled := false
        eightDDryTarget := 1
        eightDWetTarget := 0
        lfoRunning := false
        panTarget := 0 }

/-!  Theorems.  Helper lemmas come first, then one theorem per claim. -/

/-- The step invariant behind gapless scheduling, relative to the value
`t` of `nextStartTime` before the first listed buffer was ingested: each
buffer starts exactly at the clock value unless it resynchronized, in
which case it starts strictly later than the clock value plus the 0.5 s
drift threshold; afterwards the clock is its start plus its duration. -/
def gaplessFrom (t : ℚ) : List Sched → Prop
  | [] => True
  | s :: rest =>
      (s.resync = false → s.start = t) ∧
      (s.resync = true → t + 1/2 < s.start) ∧
      gaplessFrom (s.start + s.dur) rest

lemma gaplessFrom_cons (t : ℚ) (s : Sched) (l : List Sched) :
    gaplessFrom t (s :: l) ↔
      (s.resync = false → s.start = t) ∧
      (s.resync = true → t + 1/2 < s.start) ∧
      gaplessFrom (s.start + s.dur) l := Iff.rfl

lemma processAudioChunk_playing (h : Helper) (c : Chunk)
    (hp : h.playbackState = .playing) (hd : c.hasData = true) :
    ∃ s : Sched,
      (processAudioChunk h c).2.1 = some s ∧
      (processAudioChunk h c).1 = { h with nextStartTime := s.start + s.dur } ∧
      s.dur = c.dur ∧
      (s.resync = false → s.start = h.nextStartTime) ∧
      (s.resync = true → h.nextStartTime + 1/2 < s.start) := by
  by_cases hr : h.nextStartTime < c.now - 1/2
  · refine ⟨⟨c.now + 1/10, c.dur, true⟩, ?_, ?_, rfl, by simp, fun _ => by linarith⟩
    · simp [processAudioChunk, hp, hd, hr]
      exact ⟨fun hc => by linarith, by linarith⟩
    · simp [processAudioChunk, hp, hd, hr]
      intro hc; linarith
  · have hr' := not_lt.mp hr
    refine ⟨⟨h.nextStartTime, c.dur, false⟩, ?_, ?_, rfl, fun _ => rfl, by simp⟩
    · simp [processAudioChunk, hp, hd, hr]
      exact ⟨fun hc => by linarith, by linarith⟩
    · simp [processAudioChunk, hp, hd, hr]
      intro hc; linarith

lemma ingestAll_gaplessFrom (cs : List Chunk) (h : Helper)
    (hp : h.playbackState = .playing)
    (hd : ∀ c ∈ cs, c.hasData = true) :
    gaplessFrom h.nextStartTime (ingestAll h cs).2 ∧
    (∀ s ∈ (ingestAll h cs).2, ∃ c ∈ cs, s.dur = c.dur) := by
  induction cs generalizing h with
  | nil => simp [ingestAll, gaplessFrom]
  | cons c rest ih =>
    obtain ⟨s, hs, hst, hdur, hnores, hres⟩ :=
      processAudioChunk_playing h c hp (hd c (by simp))
    have hrest := ih { h with nextStartTime := s.start + s.dur } (by simp [hp])
      (fun c' hc' => hd c' (by simp [hc']))
    rw [show (ingestAll h (c :: rest)) =
        ((ingestAll (processAudioChunk h c).1 rest).1,
         (processAudioChunk h c).2.1.toList ++ (ingestAll (processAudioChunk h c).1 rest).2)
      from rfl, hs, hst]
    constructor
    · exact (gaplessFrom_cons _ _ _).mpr ⟨hnores, hres, hrest.1⟩
    · intro s' hs'
      rcases List.mem_append.mp hs' with h1 | h2
      · simp at h1; exact ⟨c, by simp, h1 ▸ hdur⟩
      · obtain ⟨c', hc', hdc'⟩ := hrest.2 s' h2
        exact ⟨c', by simp [hc'], hdc'⟩

lemma gaplessFrom_chain (l : List Sched) (t : ℚ)
    (hg : gaplessFrom t l) (hd : ∀ s ∈ l, 0 < s.dur) :
    List.Chain' (fun a b => a.start < b.start ∧ (b.resync = false → b.start = a.start + a.dur)) l := by
  induction l generalizing t with
  | nil => simp
  | cons s rest ih =>
    cases rest with
    | nil => simp
    | cons s' rest' =>
      rw [gaplessFrom_cons] at hg
      obtain ⟨hs1, hs2, hg2⟩ := hg
      have hhead := (gaplessFrom_cons _ _ _).mp hg2
      refine List.chain'_cons.mpr ⟨?_, ih (s.start + s.dur) hg2 (fun x hx => hd x (by simp [hx]))⟩
      have hdpos : 0 < s.dur := hd s (by simp)
      constructor
      · cases hr : s'.resync with
        | false => have := hhead.1 hr; linarith
        | true => have := hhead.2.1 hr; linarith
      · exact hhead.1

/-- C1: for every sequence of buffers ingested while `PlaybackState` is
`playing`, the scheduled start times are strictly increasing, and each
buffer's scheduled start equals the previous buffer's start plus the
previous buffer's duration, except immediately following a
resynchronization. -/
theorem c1_gapless_scheduling (h : Helper) (cs : List Chunk)
    (hp : h.playbackState = .playing)
    (hd : ∀ c ∈ cs, c.hasData = true)
    (hdur : ∀ c ∈ cs, 0 < c.dur) :
    List.Chain' (fun a b => a.start < b.start ∧ (b.resync = false → b.start = a.start + a.dur))
      (ingestAll h cs).2 := by
  obtain ⟨hg, hdurs⟩ := ingestAll_gaplessFrom cs h hp hd
  refine gaplessFrom_chain _ _ hg (fun s hs => ?_)
  obtain ⟨c, hc, hsc⟩ := hdurs s hs
  exact hsc ▸ hdur c hc

theorem c1_witness :
    List.Chain' (fun a b => a.start < b.start ∧ (b.resync = false → b.start = a.start + a.dur))
      (ingestAll { initHelper with playbackState := .playing, nextStartTime := 1 }
        [⟨1, 2, true⟩, ⟨2, 1, true⟩]).2 :=
  c1_gapless_scheduling _ _ rfl (by simp) (by norm_num)

lemma processAudioChunk_sched (h : Helper) (c : Chunk) (s : Sched)
    (hs : (processAudioChunk h c).2.1 = some s) :
    s = ⟨if h.playbackState = .loading then c.now + h.bufferTime
         else if h.nextStartTime < c.now - 1/2 then c.now + 1/10 else h.nextStartTime,
         c.dur, decide (h.nextStartTime < c.now - 1/2)⟩ := by
  unfold processAudioChunk at hs
  by_cases hg : h.playbackState = .paused ∨ h.playbackState = .stopped ∨ c.hasData = false
  · rw [if_pos hg] at hs; exact absurd hs (by simp)
  · rw [if_neg hg] at hs
    simp only [Option.some.injEq] at hs
    rw [← hs]
    by_cases hl : h.playbackState = .loading <;>
      by_cases hr : h.nextStartTime < c.now - 1/2 <;>
        simp [hl, hr]

/-- C2 counterexample: with the state `playing` and `nextStartTime`
three tenths of a second behind the audio clock (drift below the 0.5 s
threshold), the ingest passes a start time strictly in the past to
`source.start` — refuting that no buffer is ever scheduled with a start
time in the past. -/
theorem c2_counterexample :
    (processAudioChunk { initHelper with playbackState := .playing, nextStartTime := 97/10 }
        ⟨10, 1, true⟩).2.1 = some ⟨97/10, 1, false⟩ ∧
    (97/10 : ℚ) < 10 := by
  constructor
  · simp +decide [processAudioChunk, initHelper]; norm_num
  · norm_num

/-- C2 (amended): a scheduled start time is never more than 0.5 s in the
past relative to the audio clock at the moment scheduling occurs — not
never in the past — and, while `playing`, whenever
`nextStartTime < now - 0.5` at ingest the start is resynchronized to
exactly `now + 0.1`. -/
theorem c2_amended_drift_bound (h : Helper) (c : Chunk) (s : Sched)
    (hb : 0 ≤ h.bufferTime)
    (hs : (processAudioChunk h c).2.1 = some s) :
    c.now - 1/2 ≤ s.start ∧
    (h.playbackState = .playing → h.nextStartTime < c.now - 1/2 → s.start = c.now + 1/10) := by
  rw [processAudioChunk_sched h c s hs]
  constructor
  · show c.now - 1/2 ≤ if h.playbackState = .loading then c.now + h.bufferTime
        else if h.nextStartTime < c.now - 1/2 then c.now + 1/10 else h.nextStartTime
    by_cases hl : h.playbackState = .loading
    · rw [if_pos hl]; linarith
    · rw [if_neg hl]
      by_cases hr : h.nextStartTime < c.now - 1/2
      · rw [if_pos hr]; linarith
      · rw [if_neg hr]; linarith [not_lt.mp hr]
  · intro hp hr
    have hl : ¬ h.playbackState = .loading := by rw [hp]; simp
    show (if h.playbackState = .loading then c.now + h.bufferTime
        else if h.nextStartTime < c.now - 1/2 then c.now + 1/10 else h.nextStartTime) = c.now + 1/10
    rw [if_neg hl, if_pos hr]

theorem c2_amended_witness :
    ((10 : ℚ) - 1/2 ≤ Sched.start ⟨101/10, 1, true⟩ ∧
      (({ initHelper with playbackState := .playing } : Helper).playbackState = .playing →
        ({ initHelper with playbackState := .playing } : Helper).nextStartTime < (10 : ℚ) - 1/2 →
        Sched.start ⟨101/10, 1, true⟩ = (10 : ℚ) + 1/10)) :=
  c2_amended_drift_bound { initHelper with playbackState := .playing } ⟨10, 1, true⟩
    ⟨101/10, 1, true⟩ (by norm_num [initHelper])
    (by simp +decide [processAudioChunk, initHelper]; norm_num)

/-- C3: while the "wants to be connected" flag is set, the `n`-th
automatic retry (1-indexed) is armed with delay `min(1000 * 2^n, 8000)`
milliseconds; and in the always-failing scenario (six consecutive
disconnections from a fresh helper that wants to stay connected) exactly
5 retries are armed, with delays 2000, 4000, 8000, 8000, 8000 ms, the
fatal error fires exactly once, the flag ends cleared (so `play()` is
not retried) and `stop()` has run, leaving the state `stopped`. -/
theorem c3_reconnect_backoff (h : Helper) (n : ℕ)
    (hflag : h.isTryingToConnectOrPlay = true)
    (hmax : h.maxReconnectAttempts = 5)
    (hn : h.reconnectAttempts + 1 = n) (hn5 : n ≤ 5) :
    (handleDisconnection h).2.2 = some (min (1000 * 2 ^ n) 8000) ∧
    (runDisconnections { initHelper with isTryingToConnectOrPlay := true } 6).2.2
        = [2000, 4000, 8000, 8000, 8000] ∧
    ((runDisconnections { initHelper with isTryingToConnectOrPlay := true } 6).2.1.countP
        (fun e => decide (e = Event.errorEvt fatalMsg))) = 1 ∧
    (runDisconnections { initHelper with isTryingToConnectOrPlay := true } 6).1.isTryingToConnectOrPlay
        = false ∧
    (runDisconnections { initHelper with isTryingToConnectOrPlay := true } 6).1.playbackState
        = .stopped := by
  refine ⟨?_, ?_, ?_, ?_, ?_⟩
  · have hlt : h.reconnectAttempts < h.maxReconnectAttempts := by omega
    simp only [handleDisconnection]
    rw [if_pos (by exact ⟨hflag, by simpa using hlt⟩)]
    simp [← hn]
  · simp +decide [runDisconnections, handleDisconnection, stop, initHelper]
  · simp +decide [runDisconnections, handleDisconnection, stop, initHelper]
  · simp +decide [runDisconnections, handleDisconnection, stop, initHelper]
  · simp +decide [runDisconnections, handleDisconnection, stop, initHelper]

theorem c3_witness :
    (handleDisconnection { initHelper with isTryingToConnectOrPlay := true }).2.2
        = some (min (1000 * 2 ^ 1) 8000) ∧
    (runDisconnections { initHelper with isTryingToConnectOrPlay := true } 6).2.2
        = [2000, 4000, 8000, 8000, 8000] ∧
    ((runDisconnections { initHelper with isTryingToConnectOrPlay := true } 6).2.1.countP
        (fun e => decide (e = Event.errorEvt fatalMsg))) = 1 ∧
    (runDisconnections { initHelper with isTryingToConnectOrPlay := true } 6).1.isTryingToConnectOrPlay
        = false ∧
    (runDisconnections { initHelper with isTryingToConnectOrPlay := true } 6).1.playbackState
        = .stopped :=
  c3_reconnect_backoff { initHelper with isTryingToConnectOrPlay := true } 1 rfl rfl rfl
    (by norm_num)

/-- C4: calling `play()` while the set of active prompts is empty
synchronously emits a user-visible error event, opens no session, leaves
`PlaybackState` unchanged and arms no timer (the "wants to be connected"
flag ends cleared). -/
theorem c4_play_no_active_prompts (h : Helper) (oc : ConnectOutcome)
    (hemp : activePrompts h = []) :
    (play h oc).2.1 = [.errorEvt noPromptMsg] ∧
    (play h oc).1.playbackState = h.playbackState ∧
    (play h oc).1.hasSession = h.hasSession ∧
    (play h oc).1.isTryingToConnectOrPlay = false ∧
    (play h oc).2.2 = none := by
  have h0 : activePrompts { h with isTryingToConnectOrPlay := true } = activePrompts h := rfl
  simp [play, h0, hemp]

theorem c4_witness :
    (play initHelper .success).2.1 = [.errorEvt noPromptMsg] ∧
    (play initHelper .success).1.playbackState = initHelper.playbackState ∧
    (play initHelper .success).1.hasSession = initHelper.hasSession ∧
    (play initHelper .success).1.isTryingToConnectOrPlay = false ∧
    (play initHelper .success).2.2 = none :=
  c4_play_no_active_prompts initHelper .success rfl

/-- C10: `startRecording()` has no effect at all — state (including the
recorder and the recording flag) unchanged, no event emitted — whenever
a recording is already in progress or the playback state is not
`playing`. -/
theorem c10_start_recording_guard (h : Helper)
    (hg : h.isRecording = true ∨ h.playbackState ≠ .playing) :
    startRecording h = (h, []) := by
  simp [startRecording, hg]

theorem c10_witness : startRecording initHelper = (initHelper, []) :=
  c10_start_recording_guard initHelper (Or.inr (by simp [initHelper]))

/-- C5 counterexample: the setters do not clamp.  `setDelayFeedback 2`
stores 2 as the feedback gain target (well above the documented 0.95
bound, neither rejected nor clamped), and `setPan 3` stores 3 (outside
[-1, 1]). -/
theorem c5_counterexample :
    (setDelayFeedback initEffects 2).delayFeedbackTarget = 2 ∧
    ¬ (setDelayFeedback initEffects 2).delayFeedbackTarget ≤ 19/20 ∧
    (setPan initEffects 3).panTarget = 3 ∧
    ¬ (setPan initEffects 3).panTarget ≤ 1 := by
  refine ⟨rfl, ?_, ?_, ?_⟩
  · show ¬ (2 : ℚ) ≤ 19/20; norm_num
  · simp +decide [setPan, initEffects]
  · show ¬ (setPan initEffects 3).panTarget ≤ 1
    rw [show (setPan initEffects 3).panTarget = 3 from by simp +decide [setPan, initEffects]]
    norm_num

/-- C5 (amended): no effects setter clamps its input; each setter
forwards the raw value (including out-of-range values) unchanged as the
smoothing target of its audio parameter — `setPan` does so only while 8D
is disabled, being a no-op otherwise — and `setFilterResonance` stores
the affine image `0.1 + v * (20 - 0.1)` of its raw input. -/
theorem c5_amended_no_clamping (e : AudioEffects) (v : ℚ)
    (h8 : e.is8DEnabled = false) :
    (setPan e v).panTarget = v ∧
    (setDelayFeedback e v).delayFeedbackTarget = v ∧
    (setDelay e v).delayWetTarget = v ∧
    (setReverb e v).reverbWetTarget = v ∧
    (setDelayTime e v).delayTimeTarget = v ∧
    (setFilterResonance e v).filterQTarget = 1/10 + v * (20 - 1/10) := by
  refine ⟨?_, rfl, rfl, rfl, rfl, rfl⟩
  simp [setPan, h8]

theorem c5_amended_witness :
    (setPan initEffects 2).panTarget = 2 ∧
    (setDelayFeedback initEffects 2).delayFeedbackTarget = (2 : ℚ) ∧
    (setDelay initEffects 2).delayWetTarget = 2 ∧
    (setReverb initEffects 2).reverbWetTarget = 2 ∧
    (setDelayTime initEffects 2).delayTimeTarget = 2 ∧
    (setFilterResonance initEffects 2).filterQTarget = 1/10 + 2 * (20 - 1/10) :=
  c5_amended_no_clamping initEffects 2 rfl

/-- A sample prompt, active (positive weight, not filtered) in the
states below. -/
def demoPrompt : Prompt := ⟨"p1", "techno", 1, 0, "#fff", "beat"⟩

/-- A helper that saw one content-filter notice ("bad") during its first
session. -/
def c6Helper : Helper :=
  (onFilteredPrompt { initHelper with prompts := [demoPrompt] } "bad").1

/-- C6 counterexample: opening a new session (a successful `play()`)
does not clear the content-filtered set — after the new session is open
the set still contains the text filtered during the previous session,
refuting "cleared when a new session is opened". -/
theorem c6_counterexample :
    (play c6Helper .success).1.hasSession = true ∧
    (play c6Helper .success).1.filteredPrompts = ["bad"] := by
  constructor <;>
    simp +decide [play, c6Helper, onFilteredPrompt, addFiltered, activePrompts, initHelper,
      demoPrompt]

/-- C6 (amended): the set of content-filtered prompt texts grows
monotonically and is never cleared: the filtered-prompt handler only
adds to it, and `play` (including opening a new session), `stop`,
`pause` and `handleDisconnection` all leave it unchanged — it persists
for the helper's lifetime. -/
theorem c6_amended_filtered_monotone (h : Helper) (t : String) (oc : ConnectOutcome) :
    h.filteredPrompts ⊆ (onFilteredPrompt h t).1.filteredPrompts ∧
    (play h oc).1.filteredPrompts = h.filteredPrompts ∧
    (stop h).1.filteredPrompts = h.filteredPrompts ∧
    (pause h).1.filteredPrompts = h.filteredPrompts ∧
    (handleDisconnection h).1.filteredPrompts = h.filteredPrompts := by
  have hd : ∀ g : Helper, (handleDisconnection g).1.filteredPrompts = g.filteredPrompts := by
    intro g
    simp only [handleDisconnection, stop]
    split
    · rfl
    · split <;> rfl
  refine ⟨?_, ?_, rfl, rfl, hd h⟩
  · unfold onFilteredPrompt addFiltered
    split
    · exact fun x hx => hx
    · exact fun x hx => List.mem_append_left _ hx
  · cases oc with
    | success =>
      simp only [play]
      split
      · rfl
      · rfl
    | failureThrown =>
      simp only [play]
      split
      · rfl
      · exact hd _

/-- C7 counterexample: while the state is `loading`, the pre-roll does
not complete once per phase — every ingested buffer re-arms the one-shot
timer and resets `nextStartTime` to `now + bufferTime`.  Two consecutive
ingests while loading each arm a timer, and the second one resets the
schedule to its own `now + bufferTime` (start 9/2 at `now = 2` with
`bufferTime = 5/2`) instead of continuing gaplessly from the first
ingest's schedule (which would have been 7/2). -/
theorem c7_counterexample :
    (processAudioChunk { initHelper with playbackState := .loading } ⟨0, 1, true⟩).2.2 = true ∧
    (processAudioChunk
        (processAudioChunk { initHelper with playbackState := .loading } ⟨0, 1, true⟩).1
        ⟨2, 1, true⟩).2.2 = true ∧
    (processAudioChunk
        (processAudioChunk { initHelper with playbackState := .loading } ⟨0, 1, true⟩).1
        ⟨2, 1, true⟩).2.1 = some ⟨9/2, 1, false⟩ ∧
    (9/2 : ℚ) ≠ 7/2 := by
  refine ⟨?_, ?_, ?_, by norm_num⟩
  · simp +decide [processAudioChunk, initHelper]
  · simp +decide [processAudioChunk, initHelper]
  · simp +decide [processAudioChunk, initHelper]; norm_num

/-- C7 (amended): every buffer ingested while the state is `loading`
(not only the first) sets `nextStartTime = now + bufferTime` and arms a
fresh one-shot pre-roll timer; each such timer transitions the state to
`playing` only if the state is still `loading` when it fires, so the
loading-to-playing transition itself still happens at most once. -/
theorem c7_amended_preroll_per_buffer (h h' : Helper) (c : Chunk)
    (hl : h.playbackState = .loading) (hd : c.hasData = true)
    (hnl : h'.playbackState ≠ .loading) :
    (processAudioChunk h c).2.2 = true ∧
    (processAudioChunk h c).2.1 =
      some ⟨c.now + h.bufferTime, c.dur, decide (h.nextStartTime < c.now - 1/2)⟩ ∧
    (processAudioChunk h c).1.nextStartTime = c.now + h.bufferTime + c.dur ∧
    (processAudioChunk h c).1.playbackState = .loading ∧
    (preRollTimerFire h).1.playbackState = .playing ∧
    preRollTimerFire h' = (h', []) := by
  have hg : ¬(h.playbackState = .paused ∨ h.playbackState = .stopped ∨ c.hasData = false) := by
    simp [hl, hd]
  refine ⟨?_, ?_, ?_, ?_, ?_, ?_⟩
  · simp [processAudioChunk, hg, hl, hd]
  · simp [processAudioChunk, hg, hl, hd]
  · simp [processAudioChunk, hg, hl, hd]
  · simp [processAudioChunk, hg, hl, hd]
  · simp [preRollTimerFire, hl]
  · simp [preRollTimerFire, hnl]

theorem c7_amended_witness :
    (processAudioChunk { initHelper with playbackState := .loading } ⟨0, 1, true⟩).2.2 = true ∧
    (processAudioChunk { initHelper with playbackState := .loading } ⟨0, 1, true⟩).2.1 =
      some ⟨(0 : ℚ) + ({ initHelper with playbackState := .loading } : Helper).bufferTime, 1,
        decide (({ initHelper with playbackState := .loading } : Helper).nextStartTime
          < (0 : ℚ) - 1/2)⟩ ∧
    (processAudioChunk { initHelper with playbackState := .loading } ⟨0, 1, true⟩).1.nextStartTime
      = (0 : ℚ) + ({ initHelper with playbackState := .loading } : Helper).bufferTime + 1 ∧
    (processAudioChunk { initHelper with playbackState := .loading } ⟨0, 1, true⟩).1.playbackState
      = .loading ∧
    (preRollTimerFire { initHelper with playbackState := .loading }).1.playbackState = .playing ∧
    preRollTimerFire initHelper = (initHelper, []) :=
  c7_amended_preroll_per_buffer { initHelper with playbackState := .loading } initHelper
    ⟨0, 1, true⟩ rfl rfl (by simp [initHelper])

/-- C8: a burst of `N ≥ 1` calls to the throttled `setWeightedPrompts`
whose timestamps all lie within one 150 ms trailing window produces at
most one upstream `session.setWeightedPrompts` call — exactly one when a
session is open, none when no session is open — and both the cached
prompt set and the payload of the upstream call (its `activePrompts`
view) come from the `N`-th (most recently supplied) prompt set, never a
stale intermediate one. -/
theorem c8_throttled_set_weighted_prompts (h : Helper)
    (calls : List (ℚ × List Prompt)) (t : ℚ) (ps : List Prompt)
    (hlast : calls.getLast? = some (t, ps))
    (hwin : ∀ p ∈ calls, ∀ q ∈ calls, p.1 - q.1 ≤ throttleWindowMs) :
    (setWeightedPromptsWindow h calls).1.prompts = ps ∧
    (setWeightedPromptsWindow h calls).2 =
      (if h.hasSession = true then [activePrompts { h with prompts := ps }] else []) ∧
    (setWeightedPromptsWindow h calls).2.length ≤ 1 ∧
    (h.hasSession = false → (setWeightedPromptsWindow h calls).2 = []) := by
  have hfire : throttleBurstFire calls = [(t, ps)] := by
    simp [throttleBurstFire, hlast]
  have hses : ({ h with prompts := ps } : Helper).hasSession = h.hasSession := rfl
  refine ⟨?_, ?_, ?_, ?_⟩ <;>
    simp only [setWeightedPromptsWindow, hfire, List.foldl_cons, List.foldl_nil,
      setWeightedPromptsBody, hses] <;>
    by_cases hs : h.hasSession = true <;> simp [hs]

theorem c8_witness :
    (setWeightedPromptsWindow { initHelper with hasSession := true }
        [(0, []), (10, [demoPrompt])]).1.prompts = [demoPrompt] ∧
    (setWeightedPromptsWindow { initHelper with hasSession := true }
        [(0, []), (10, [demoPrompt])]).2 =
      (if ({ initHelper with hasSession := true } : Helper).hasSession = true
        then [activePrompts { { initHelper with hasSession := true } with
                prompts := [demoPrompt] }] else []) ∧
    (setWeightedPromptsWindow { initHelper with hasSession := true }
        [(0, []), (10, [demoPrompt])]).2.length ≤ 1 ∧
    (({ initHelper with hasSession := true } : Helper).hasSession = false →
      (setWeightedPromptsWindow { initHelper with hasSession := true }
        [(0, []), (10, [demoPrompt])]).2 = []) :=
  c8_throttled_set_weighted_prompts { initHelper with hasSession := true }
    [(0, []), (10, [demoPrompt])] 10 [demoPrompt] rfl
    (by intro p hp q hq; fin_cases hp <;> fin_cases hq <;> norm_num [throttleWindowMs])

/-- C9: `setFilterCutoff` maps the normalized input `v` to the target
frequency `40 * (nyquist/40)^v` Hz, so `v = 0` yields 40 Hz, `v = 1`
yields the Nyquist frequency, and values in between map log-linearly
(the log of the frequency is affine in `v`); `setFilterResonance` maps
`v` linearly to `Q = 0.1 + v * (20 - 0.1)`. -/
theorem c9_filter_mappings :
    cutoffFreq 0 = 40 ∧
    cutoffFreq 1 = nyquistFreq ∧
    (∀ v : ℝ, Real.log (cutoffFreq v) = Real.log 40 + v * Real.log (nyquistFreq / 40)) ∧
    (∀ v : ℚ, resonanceQ v = 1/10 + v * (20 - 1/10)) ∧
    (∀ (e : AudioEffects) (v : ℚ), (setFilterCutoff e v).filterFreqTarget = cutoffFreq v) ∧
    (∀ (e : AudioEffects) (v : ℚ), (setFilterResonance e v).filterQTarget = resonanceQ v) := by
  have hnyq : nyquistFreq = 24000 := by norm_num [nyquistFreq, sampleRate]
  have hbase : nyquistFreq / 40 = 600 := by rw [hnyq]; norm_num
  have hpos : (0 : ℝ) < nyquistFreq / 40 := by rw [hbase]; norm_num
  refine ⟨?_, ?_, ?_, fun v => rfl, fun e v => rfl, fun e v => rfl⟩
  · simp [cutoffFreq]
  · rw [cutoffFreq, Real.rpow_one, hbase, hnyq]; norm_num
  · intro v
    rw [cutoffFreq, Real.log_mul (by norm_num) (Real.rpow_pos_of_pos hpos v).ne',
      Real.log_rpow hpos]
